import Mathlib

/-!
Verification of the layer rendering core of maptalks
(src/renderer/layer/CanvasRenderer.js): the resource cache, the resource
loader dedup pass, the redraw scheduler, the canvas mask clipping, the
render-complete flag and hit detection. Each JS class member is embedded
as a pure Lean function over an explicit state record; JS numbers that may
be NaN (coercions of undefined size hints) are embedded as Option Nat, and
JS object maps as association lists keyed by strings.
-/

namespace MapRender

/-- An opaque decoded image asset; only identity matters to the cache. -/
abbrev ImageAsset := Nat

/-- A resource request as built by checkResources: a JS array
[url, width, height] where width and height may be undefined (embedded as
none). Corresponds to the url arrays consumed by loadResources,
isResourceLoaded, addResource, getImage and markErrorResource. -/
structure ResourceKey where
  id : String
  w : Option Nat
  h : Option Nat
deriving Repr, DecidableEq

/-- A cache entry as stored by ResourceCache.addResource:
{ image, width: +url[1], height: +url[2] }. A width of none embeds the NaN
produced by coercing an undefined size hint. -/
structure ResEntry where
  image : ImageAsset
  width : Option Nat
  height : Option Nat
deriving Repr, DecidableEq

/-- The ResourceCache state: this.resources, a JS object keyed by url[0]
(association list with unique keys), and this._errors, a JS object used as
a set of identifiers. -/
structure ResourceCache where
  resources : List (String × ResEntry)
  errors : List String
deriving Repr, DecidableEq

/-- Modelled from the spec: the format classifier isSVG lives in core/util,
outside the rendering sources. An identifier denotes a
resolution-independent (scalable) resource when it carries the .svg
extension or is an inline svg data URI. -/
def isSVG (s : String) : Bool :=
  ".svg".data.isSuffixOf s.data || "data:image/svg+xml".data.isPrefixOf s.data

/-- JS strict greater-than where either operand may be NaN (none):
any comparison against NaN is false. Embeds +url[1] > img.width. -/
def jsGt : Option Nat → Option Nat → Bool
  | some a, some b => decide (a > b)
  | _, _ => false

/-- Lookup in a JS object embedded as an association list. -/
def lookupRes (m : List (String × ResEntry)) (k : String) : Option ResEntry :=
  (m.find? (fun kv => kv.1 == k)).map (fun kv => kv.2)

/-- Assignment into a JS object embedded as an association list: update in
place when the key exists, append otherwise. -/
def insertRes : List (String × ResEntry) → String → ResEntry → List (String × ResEntry)
  | [], k, v => [(k, v)]
  | (k0, v0) :: rest, k, v =>
      if k0 == k then (k, v) :: rest else (k0, v0) :: insertRes rest k v

/-- ResourceCache._getImgUrl for an array argument: url[0]. -/
def getImgUrl (u : ResourceKey) : String := u.id

/-- ResourceCache.addResource(url, img): stores
{ image: img, width: +url[1], height: +url[2] } under key url[0]. -/
def addResource (c : ResourceCache) (u : ResourceKey) (img : ImageAsset) : ResourceCache :=
  { c with resources := insertRes c.resources u.id ⟨img, u.w, u.h⟩ }

/-- ResourceCache.isResourceLoaded(url, checkSVG) for an array url argument
(always truthy, so the initial falsy-url guard does not fire): true when the
identifier is in the error set; otherwise false when no entry exists;
otherwise false when checkSVG is set, the identifier is an SVG, and the
requested width or height strictly exceeds the stored one; true otherwise. -/
def isResourceLoaded (c : ResourceCache) (u : ResourceKey) (checkSVG : Bool) : Bool :=
  let imgUrl := getImgUrl u
  if c.errors.contains imgUrl then true
  else
    match lookupRes c.resources imgUrl with
    | none => false
    | some img =>
        if checkSVG && isSVG u.id && (jsGt u.w img.width || jsGt u.h img.height) then false
        else true

/-- ResourceCache.getImage(url): null when isResourceLoaded(url) is false or
the identifier is in the error set, the stored image otherwise. -/
def getImage (c : ResourceCache) (u : ResourceKey) : Option ImageAsset :=
  let imgUrl := getImgUrl u
  if !(isResourceLoaded c u false) || c.errors.contains imgUrl then none
  else (lookupRes c.resources imgUrl).map (fun e => e.image)

/-- ResourceCache.markErrorResource(url): this._errors[url[0]] = 1 (a JS
object key assignment, hence a set insertion). -/
def markErrorResource (c : ResourceCache) (u : ResourceKey) : ResourceCache :=
  { c with
    errors := if c.errors.contains (getImgUrl u) then c.errors else getImgUrl u :: c.errors }

/-- The body of the merge loop: this.addResource([p, img.width,
img.height], img.image) for one entry of the source cache. -/
def mergeAdd (acc : ResourceCache) (pe : String × ResEntry) : ResourceCache :=
  addResource acc ⟨pe.1, pe.2.width, pe.2.height⟩ pe.2.image

/-- ResourceCache.merge(res): when res is null, returns this unchanged;
otherwise re-adds every entry of res.resources through addResource with the
key [p, img.width, img.height] and image img.image. The error set of res is
never read. -/
def merge (c : ResourceCache) (res : Option ResourceCache) : ResourceCache :=
  match res with
  | none => c
  | some r => r.resources.foldl mergeAdd c

/-- The string url.join('-') of a length-3 request array; an undefined size
hint joins as the empty string. Used as the per-batch dedup key in
loadResources. -/
def optNumStr : Option Nat → String
  | some n => toString n
  | none => ""

/-- The dedup key cache[url.join('-')] computed by loadResources. -/
def joinKey (u : ResourceKey) : String :=
  u.id ++ "-" ++ optNumStr u.w ++ "-" ++ optNumStr u.h

/-- The loop of loadResources, iterating the batch from the last index down
to 0 (hence called on the reversed batch): skip a request whose join key was
already seen, otherwise record the key and issue a fetch (push a promise)
unless isResourceLoaded(url, true) already holds. Returns the requests for
which a fetch is issued; the cache is not mutated during the synchronous
loop (image callbacks run later). -/
def loadLoop (cache : ResourceCache) : List ResourceKey → List String → List ResourceKey
  | [], _ => []
  | u :: rest, seen =>
      let k := joinKey u
      if seen.contains k then loadLoop cache rest seen
      else if isResourceLoaded cache u true then loadLoop cache rest (k :: seen)
      else u :: loadLoop cache rest (k :: seen)

/-- CanvasRenderer.loadResources(resourceUrls), restricted to its observable
fetch decisions: the sub-batch of requests for which a fetch is issued. The
JS loop runs i from resourceUrls.length-1 down to 0, so the loop processes
the reversed list with an initially empty dedup map. -/
def loadResources (cache : ResourceCache) (resourceUrls : List ResourceKey) : List ResourceKey :=
  loadLoop cache resourceUrls.reverse []

/-- One mutating cache operation, used to state lifetime invariants. -/
inductive CacheOp where
  | add (u : ResourceKey) (img : ImageAsset)
  | markErr (u : ResourceKey)
  | mergeFrom (other : ResourceCache)
deriving Repr

/-- Apply one cache operation. -/
def applyOp (c : ResourceCache) : CacheOp → ResourceCache
  | CacheOp.add u img => addResource c u img
  | CacheOp.markErr u => markErrorResource c u
  | CacheOp.mergeFrom other => merge c (some other)

/-- Apply a sequence of cache operations in order. -/
def applyOps (c : ResourceCache) (ops : List CacheOp) : ResourceCache :=
  ops.foldl applyOp c

/-- The state read by CanvasRenderer.needToRedraw: the renderer flags
_loadingResource and _toRedraw, the presence of the optional
drawOnInteracting method, the layer option forceRenderOnMoving, and the
map queries isInteracting, getPitch, isMoving, isZooming, isRotating.
The JS truthiness test on getPitch() holds exactly when the pitch is
nonzero. -/
structure SchedState where
  loadingResource : Bool
  toRedraw : Bool
  hasDrawOnInteracting : Bool
  forceRenderOnMoving : Bool
  interacting : Bool
  pitch : Nat
  moving : Bool
  zooming : Bool
  rotating : Bool
deriving Repr, DecidableEq

/-- CanvasRenderer.needToRedraw: false while a resource batch is loading;
true when the invalidation flag is set; false when the renderer has no
drawOnInteracting method; while the map interacts, false exactly for a pure
pitchless pan without forceRenderOnMoving; false otherwise. -/
def needToRedraw (s : SchedState) : Bool :=
  if s.loadingResource then false
  else if s.toRedraw then true
  else if !s.hasDrawOnInteracting then false
  else if s.interacting then
    !(s.pitch == 0 && s.moving && !s.zooming && !s.rotating && !s.forceRenderOnMoving)
  else false

/-- A 2D point extent. The maptalks extent class lives in geo, outside the
rendering sources; only its intersection test is consumed here. -/
structure Extent where
  xmin : Int
  ymin : Int
  xmax : Int
  ymax : Int
deriving Repr, DecidableEq

/-- Modelled from the spec: the 2D extent intersection test of the geo
extent class (outside the rendering sources) — two axis-aligned extents
intersect when they overlap on both axes. -/
def Extent.intersects (a b : Extent) : Bool :=
  decide (max a.xmin b.xmin ≤ min a.xmax b.xmax) &&
  decide (max a.ymin b.ymin ≤ min a.ymax b.ymax)

/-- The state touched by CanvasRenderer.prepareCanvas: the _clipped flag,
whether this.canvas exists, the stored _maskExtent, the 2D extent the mask
painter reports (none when layer.getMask() is null), and the current view
extent _extent2D. -/
structure CanvasState where
  clipped : Bool
  hasCanvas : Bool
  maskExtent : Option Extent
  mask : Option Extent
  extent2D : Extent
deriving Repr, DecidableEq

/-- Result of prepareCanvas: the new state, whether context.clip() was
called this cycle, and the returned extent (null when no mask). -/
structure PrepareResult where
  state : CanvasState
  clipCalled : Bool
  ret : Option Extent
deriving Repr, DecidableEq

/-- CanvasRenderer.prepareCanvas: restore and drop a leftover clip, create
or clear the canvas, delete the stored mask extent; without a mask return
null; with a mask whose extent misses _extent2D return that extent without
clipping; otherwise paint the mask, clip, set _clipped and return the
extent. -/
def prepareCanvas (s : CanvasState) : PrepareResult :=
  let s1 := if s.clipped then { s with clipped := false } else s
  let s2 := if s1.hasCanvas then s1 else { s1 with hasCanvas := true }
  let s3 := { s2 with maskExtent := none }
  match s3.mask with
  | none => ⟨s3, false, none⟩
  | some m =>
      let s4 := { s3 with maskExtent := some m }
      if !(m.intersects s4.extent2D) then ⟨s4, false, some m⟩
      else ⟨{ s4 with clipped := true }, true, some m⟩

/-- The renderer flags read and written along the _tryToDraw path:
_toRedraw, _renderComplete, _painted, _canvasUpdated, whether this.canvas
exists, whether the layer exists and reports isEmpty(), whether getMap()
returns a live map, and whether this.context exists. -/
structure RenderState where
  toRedraw : Bool
  renderComplete : Bool
  painted : Bool
  canvasUpdated : Bool
  hasCanvas : Bool
  layerEmpty : Bool
  hasMap : Bool
  hasContext : Bool
deriving Repr, DecidableEq

/-- CanvasRenderer.prepareRender, restricted to the flags above: deletes
_renderComplete (the zoom, extent and origin snapshots carry no flag
content). -/
def prepareRender (s : RenderState) : RenderState :=
  { s with renderComplete := false }

/-- CanvasRenderer._drawAndRecord with the layer draw routine passed in:
returns unchanged when getMap() is null, otherwise sets _painted and runs
the draw routine. -/
def drawAndRecord (draw : RenderState → RenderState) (s : RenderState) : RenderState :=
  if s.hasMap then draw { s with painted := true } else s

/-- CanvasRenderer._tryToDraw with the layer draw routine passed in: clears
_toRedraw; when no canvas exists and the layer is empty, sets
_renderComplete and returns without drawing; otherwise draws (the onAdd
hook carries no flag content). -/
def tryToDraw (draw : RenderState → RenderState) (s : RenderState) : RenderState :=
  let s1 := { s with toRedraw := false }
  if !s1.hasCanvas && s1.layerEmpty then { s1 with renderComplete := true }
  else drawAndRecord draw s1

/-- CanvasRenderer.completeRender: when getMap() and this.context are both
live, sets _renderComplete and marks the canvas updated; otherwise does
nothing. -/
def completeRender (s : RenderState) : RenderState :=
  if s.hasMap && s.hasContext then { s with renderComplete := true, canvasUpdated := true }
  else s

/-- CanvasRenderer.isRenderComplete: the double-negated _renderComplete
flag. -/
def isRenderComplete (s : RenderState) : Bool :=
  s.renderComplete

/-- The state read by CanvasRenderer.hitDetect: whether this.context
exists, whether the layer reports isEmpty(), the _painted flag (isBlank is
its negation), the sticky _errorThrown flag, and the map size. -/
structure HitState where
  hasContext : Bool
  layerEmpty : Bool
  painted : Bool
  errorThrown : Bool
  width : Int
  height : Int
deriving Repr, DecidableEq

/-- A container point passed to hitDetect. -/
structure HPoint where
  x : Int
  y : Int
deriving Repr, DecidableEq

/-- Result of hitDetect: the boolean answer, whether getImageData was
invoked on the context, and the updated renderer state. -/
structure HitResult where
  hit : Bool
  readAttempted : Bool
  state : HitState
deriving Repr, DecidableEq

/-- CanvasRenderer.hitDetect with the pixel read passed in (ok alpha for a
successful getImageData, error for a cross-origin security throw): false
without a read when the context is missing, the layer is empty, the canvas
is blank or an error was already thrown; false without a read when the
point lies outside the viewport; otherwise reads the pixel and answers
whether its alpha is positive, marking _errorThrown on a throw. -/
def hitDetect (pixelAlpha : Int → Int → Except Unit Nat) (s : HitState) (p : HPoint) :
    HitResult :=
  if !s.hasContext || s.layerEmpty || !s.painted || s.errorThrown then ⟨false, false, s⟩
  else if p.x < 0 || p.x > s.width || p.y < 0 || p.y > s.height then ⟨false, false, s⟩
  else
    match pixelAlpha p.x p.y with
    | Except.ok a => ⟨decide (a > 0), true, s⟩
    | Except.error _ => ⟨false, true, { s with errorThrown := true }⟩

/-! Concrete states used to instantiate the theorems below. -/

/-- A freshly constructed, empty ResourceCache. -/
def emptyCache : ResourceCache := ⟨[], []⟩

/-- A batch with the same identifier at two different size hints. -/
def batchTwoSizes : List ResourceKey :=
  [⟨"a", some 10, some 10⟩, ⟨"a", some 20, some 20⟩]

/-- A scheduler state: zoom change in progress, layer without
drawOnInteracting, no pending flags. -/
def schedZoomNoInteractive : SchedState :=
  { loadingResource := false, toRedraw := false, hasDrawOnInteracting := false,
    forceRenderOnMoving := false, interacting := true, pitch := 0,
    moving := false, zooming := true, rotating := false }

/-- A scheduler state: pure pitchless pan, layer without drawOnInteracting,
no pending flags. -/
def schedPanNoInteractive : SchedState :=
  { loadingResource := false, toRedraw := false, hasDrawOnInteracting := false,
    forceRenderOnMoving := false, interacting := true, pitch := 0,
    moving := true, zooming := false, rotating := false }

/-- A scheduler state: zoom change in progress, layer with
drawOnInteracting. -/
def schedZoomInteractive : SchedState :=
  { loadingResource := false, toRedraw := false, hasDrawOnInteracting := true,
    forceRenderOnMoving := false, interacting := true, pitch := 0,
    moving := false, zooming := true, rotating := false }

/-- A scheduler state with the loading flag set and every other flag set as
well. -/
def schedLoading : SchedState :=
  { loadingResource := true, toRedraw := true, hasDrawOnInteracting := true,
    forceRenderOnMoving := true, interacting := true, pitch := 5,
    moving := true, zooming := true, rotating := true }

/-- A cache holding one SVG entry stored at size (10, 10). -/
def cacheSvg10 : ResourceCache := ⟨[("icon.svg", ⟨0, some 10, some 10⟩)], []⟩

/-- A target cache for merge, with its own entry and its own error marker. -/
def cacheMergeInto : ResourceCache := ⟨[("x", ⟨1, some 1, some 1⟩)], ["e1"]⟩

/-- A source cache for merge, with two entries (one shadowing a key of the
target) and an error marker that must not be copied. -/
def cacheMergeFrom : ResourceCache :=
  ⟨[("x", ⟨2, some 3, some 3⟩), ("b", ⟨7, some 4, some 5⟩)], ["bad"]⟩

/-- A canvas state whose mask extent is disjoint from the view extent, with
a leftover clip from the previous cycle. -/
def canvasDisjointMask : CanvasState :=
  { clipped := true, hasCanvas := true, maskExtent := none,
    mask := some ⟨100, 100, 200, 200⟩, extent2D := ⟨0, 0, 50, 50⟩ }

/-- A render state about to short-circuit in _tryToDraw: no canvas yet and
an empty layer. -/
def renderEmptyLayer : RenderState :=
  { toRedraw := true, renderComplete := false, painted := false,
    canvasUpdated := false, hasCanvas := false, layerEmpty := true,
    hasMap := true, hasContext := false }

/-- A render state that reaches _drawAndRecord but finds no map. -/
def renderNoMap : RenderState :=
  { toRedraw := true, renderComplete := false, painted := false,
    canvasUpdated := false, hasCanvas := true, layerEmpty := false,
    hasMap := false, hasContext := false }

/-- A hit-detect state with a live painted context and a 100 by 80
viewport. -/
def hitReady : HitState :=
  { hasContext := true, layerEmpty := false, painted := true,
    errorThrown := false, width := 100, height := 80 }

/-- A pixel read that always reports an opaque pixel; used to show that the
out-of-viewport guard answers before any read. -/
def opaquePixel : Int → Int → Except Unit Nat := fun _ _ => Except.ok 255

/-! Theorems. -/

/-- C3: whenever the loading-resources flag is set, needToRedraw returns
false, regardless of the invalidation flag, the interaction state or any
other flag. -/
theorem needToRedraw_false_of_loadingResource (s : SchedState)
    (h : s.loadingResource = true) : needToRedraw s = false := by
  simp [needToRedraw, h]

/-- C3 witness: a state with the loading flag set and every other flag also
set still yields needToRedraw = false. -/
theorem needToRedraw_false_of_loadingResource_witness :
    schedLoading.loadingResource = true ∧ needToRedraw schedLoading = false :=
  ⟨rfl, needToRedraw_false_of_loadingResource schedLoading rfl⟩

/-- C4: immediately after markErrorResource(k), isResourceLoaded(k) returns
true for any checkSVG mode, for every cache — in particular for caches with
no entry for k in the success map. -/
theorem isResourceLoaded_after_markErrorResource (c : ResourceCache)
    (u : ResourceKey) (checkSVG : Bool) :
    isResourceLoaded (markErrorResource c u) u checkSVG = true := by
  unfold isResourceLoaded markErrorResource getImgUrl
  by_cases h : u.id ∈ c.errors
  · simp [h]
  · simp [h]

/-- C5: for an SVG identifier cached at stored size (10, 10) and not in the
error set, the size-aware isResourceLoaded check rejects a request at
(20, 20) and accepts requests at (5, 5) and (10, 10). -/
theorem isResourceLoaded_svg_size_rule (c : ResourceCache) (s : String)
    (img : ImageAsset)
    (herr : c.errors.contains s = false)
    (hres : lookupRes c.resources s = some ⟨img, some 10, some 10⟩)
    (hsvg : isSVG s = true) :
    isResourceLoaded c ⟨s, some 20, some 20⟩ true = false
  ∧ isResourceLoaded c ⟨s, some 5, some 5⟩ true = true
  ∧ isResourceLoaded c ⟨s, some 10, some 10⟩ true = true := by
  have herr2 : s ∉ c.errors := by simpa using herr
  unfold isResourceLoaded getImgUrl
  simp [herr2, hres, hsvg, jsGt]

/-- C5 witness: the concrete cache holding icon.svg at (10, 10). -/
theorem isResourceLoaded_svg_size_rule_witness :
    isResourceLoaded cacheSvg10 ⟨"icon.svg", some 20, some 20⟩ true = false
  ∧ isResourceLoaded cacheSvg10 ⟨"icon.svg", some 5, some 5⟩ true = true
  ∧ isResourceLoaded cacheSvg10 ⟨"icon.svg", some 10, some 10⟩ true = true :=
  isResourceLoaded_svg_size_rule cacheSvg10 "icon.svg" 0 (by decide) (by decide)
    (by decide)

/-- C7: when the layer has a mask whose 2D extent does not intersect the
current view extent, prepareCanvas makes no clip call, leaves the clipped
flag unset, and returns exactly the mask extent. -/
theorem prepareCanvas_disjoint_mask (s : CanvasState) (m : Extent)
    (hm : s.mask = some m) (hint : m.intersects s.extent2D = false) :
    (prepareCanvas s).clipCalled = false
  ∧ (prepareCanvas s).state.clipped = false
  ∧ (prepareCanvas s).ret = some m := by
  unfold prepareCanvas
  by_cases h1 : s.clipped <;> by_cases h2 : s.hasCanvas <;>
    simp [h1, h2, hm, hint]

/-- C7 witness: a state with a leftover clip and a mask extent disjoint
from the view extent. -/
theorem prepareCanvas_disjoint_mask_witness :
    canvasDisjointMask.mask = some ⟨100, 100, 200, 200⟩
  ∧ ((prepareCanvas canvasDisjointMask).clipCalled = false
     ∧ (prepareCanvas canvasDisjointMask).state.clipped = false
     ∧ (prepareCanvas canvasDisjointMask).ret = some ⟨100, 100, 200, 200⟩) :=
  ⟨rfl, prepareCanvas_disjoint_mask canvasDisjointMask ⟨100, 100, 200, 200⟩ rfl
    (by decide)⟩

/-- C10: for a point outside the viewport, hitDetect returns false and
never attempts a pixel read, whatever the pixel data would say. -/
theorem hitDetect_outside_viewport (f : Int → Int → Except Unit Nat)
    (s : HitState) (p : HPoint)
    (h : p.x < 0 ∨ p.x > s.width ∨ p.y < 0 ∨ p.y > s.height) :
    (hitDetect f s p).hit = false ∧ (hitDetect f s p).readAttempted = false := by
  unfold hitDetect
  by_cases h1 : !s.hasContext || s.layerEmpty || !s.painted || s.errorThrown
  · simp [h1]
  · have h2 : (decide (p.x < 0) || decide (p.x > s.width) || decide (p.y < 0)
        || decide (p.y > s.height)) = true := by
      rcases h with h | h | h | h <;> simp [h]
    simp [h1, h2]

/-- C10 witness: a live painted layer, a point left of the viewport, and a
pixel read that would report an opaque pixel if consulted. -/
theorem hitDetect_outside_viewport_witness :
    ((⟨-1, 10⟩ : HPoint).x < 0 ∨ (⟨-1, 10⟩ : HPoint).x > hitReady.width
      ∨ (⟨-1, 10⟩ : HPoint).y < 0 ∨ (⟨-1, 10⟩ : HPoint).y > hitReady.height)
  ∧ ((hitDetect opaquePixel hitReady ⟨-1, 10⟩).hit = false
     ∧ (hitDetect opaquePixel hitReady ⟨-1, 10⟩).readAttempted = false) :=
  ⟨Or.inl (by decide),
   hitDetect_outside_viewport opaquePixel hitReady ⟨-1, 10⟩ (Or.inl (by decide))⟩

/-- C2 counterexample: during a zoom change, for a layer without
drawOnInteracting and without forceRenderOnMoving, with no invalidation
flag and no outstanding load, needToRedraw returns false — not true as the
claim states: the capability check precedes the interaction analysis. -/
theorem needToRedraw_zoom_without_interactive_draw :
    needToRedraw schedZoomNoInteractive = false := by decide

/-- C2 amended: while the map interacts, a layer that does not support
interactive draw never redraws — needToRedraw is false during a pure pan
and during a zoom change alike; a zoom change yields true only when the
layer does support interactive draw. -/
theorem needToRedraw_interaction_amended :
    (∀ s : SchedState, s.loadingResource = false → s.toRedraw = false →
       s.hasDrawOnInteracting = false → needToRedraw s = false)
  ∧ (∀ s : SchedState, s.loadingResource = false → s.toRedraw = false →
       s.hasDrawOnInteracting = true → s.interacting = true →
       s.zooming = true → needToRedraw s = true) := by
  constructor
  · intro s h1 h2 h3
    simp [needToRedraw, h1, h2, h3]
  · intro s h1 h2 h3 h4 h5
    simp [needToRedraw, h1, h2, h3, h4, h5]

/-- C2 amended witness: a pure pan for a non-interactive layer stays false,
and a zoom for an interactive-capable layer turns true. -/
theorem needToRedraw_interaction_amended_witness :
    needToRedraw schedPanNoInteractive = false
  ∧ needToRedraw schedZoomInteractive = true :=
  ⟨needToRedraw_interaction_amended.1 schedPanNoInteractive rfl rfl rfl,
   needToRedraw_interaction_amended.2 schedZoomInteractive rfl rfl rfl rfl rfl⟩

/-- C8 counterexample: a render attempt short-circuited because the layer
is empty and no canvas exists leaves isRenderComplete true, not false as
the claim states — _tryToDraw sets _renderComplete on that path. -/
theorem renderComplete_after_empty_short_circuit :
    isRenderComplete (tryToDraw id (prepareRender renderEmptyLayer)) = true := by
  decide

/-- C8 amended: after the empty-layer short circuit (no canvas, empty
layer) isRenderComplete is true — the empty layer counts as trivially
complete; after a short circuit on a missing map it is false; and
completeRender raises the flag exactly when both map and context are
present. -/
theorem renderComplete_amended :
    (∀ (draw : RenderState → RenderState) (s : RenderState),
       s.hasCanvas = false → s.layerEmpty = true →
       isRenderComplete (tryToDraw draw (prepareRender s)) = true)
  ∧ (∀ (draw : RenderState → RenderState) (s : RenderState),
       (s.hasCanvas = true ∨ s.layerEmpty = false) → s.hasMap = false →
       isRenderComplete (tryToDraw draw (prepareRender s)) = false)
  ∧ (∀ s : RenderState,
       (completeRender s).renderComplete
         = (s.hasMap && s.hasContext || s.renderComplete)) := by
  refine ⟨?_, ?_, ?_⟩
  · intro draw s h1 h2
    simp [isRenderComplete, tryToDraw, prepareRender, h1, h2]
  · intro draw s h1 h2
    rcases h1 with h1 | h1 <;>
      simp [isRenderComplete, tryToDraw, prepareRender, drawAndRecord, h1, h2]
  · intro s
    by_cases h1 : s.hasMap = true <;> by_cases h2 : s.hasContext = true <;>
      simp_all [completeRender]

/-- C8 amended witness: the empty-layer state ends complete, the
missing-map state does not, and completeRender on the empty-layer state
follows the flag formula. -/
theorem renderComplete_amended_witness :
    isRenderComplete (tryToDraw id (prepareRender renderEmptyLayer)) = true
  ∧ isRenderComplete (tryToDraw id (prepareRender renderNoMap)) = false
  ∧ (completeRender renderEmptyLayer).renderComplete
      = (renderEmptyLayer.hasMap && renderEmptyLayer.hasContext
         || renderEmptyLayer.renderComplete) :=
  ⟨renderComplete_amended.1 id renderEmptyLayer rfl rfl,
   renderComplete_amended.2.1 id renderNoMap (Or.inl rfl) rfl,
   renderComplete_amended.2.2 renderEmptyLayer⟩

/-- Once a join key is in the seen map, the load loop never issues a fetch
whose request carries that join key. -/
theorem loadLoop_countP_zero (cache : ResourceCache) (k : String) :
    ∀ (l : List ResourceKey) (seen : List String), k ∈ seen →
      (loadLoop cache l seen).countP (fun u => joinKey u == k) = 0 := by
  intro l
  induction l with
  | nil =>
      intro seen _
      simp [loadLoop]
  | cons u rest ih =>
      intro seen h
      unfold loadLoop
      by_cases hc : seen.contains (joinKey u)
      · simp only [hc, if_true]
        exact ih seen h
      · have hmem : k ∈ joinKey u :: seen := List.mem_cons_of_mem _ h
        have hne : (joinKey u == k) = false := by
          have : joinKey u ≠ k := by
            intro he
            rw [he] at hc
            exact hc (by simpa using h)
          simpa using this
        by_cases hl : isResourceLoaded cache u true
        · simp only [hc, hl, if_true, if_false, Bool.false_eq_true]
          exact ih _ hmem
        · simp only [hc, hl, if_false, Bool.false_eq_true, List.countP_cons, hne]
          simpa using ih _ hmem

/-- Each join key accounts for at most one issued fetch in the load loop. -/
theorem loadLoop_countP_le_one (cache : ResourceCache) (k : String) :
    ∀ (l : List ResourceKey) (seen : List String),
      (loadLoop cache l seen).countP (fun u => joinKey u == k) ≤ 1 := by
  intro l
  induction l with
  | nil =>
      intro seen
      simp [loadLoop]
  | cons u rest ih =>
      intro seen
      unfold loadLoop
      by_cases hc : seen.contains (joinKey u)
      · simp only [hc, if_true]
        exact ih seen
      · by_cases hl : isResourceLoaded cache u true
        · simp only [hc, hl, if_true, if_false, Bool.false_eq_true]
          exact ih _
        · simp only [hc, hl, if_false, Bool.false_eq_true, List.countP_cons]
          by_cases hk : (joinKey u == k) = true
          · have hkeq : joinKey u = k := by simpa using hk
            have hzero : (loadLoop cache rest (joinKey u :: seen)).countP
                (fun v => joinKey v == k) = 0 :=
              loadLoop_countP_zero cache k rest (joinKey u :: seen)
                (hkeq ▸ List.mem_cons_self _ _)
            simp [hk, hzero]
          · have hk2 : (joinKey u == k) = false := by simpa using hk
            simp only [hk2, if_false]
            simpa using ih _

/-- C1 counterexample: with an empty cache, a batch holding the identifier
a at size hints (10, 10) and (20, 20) issues two fetches for that one
identifier — the dedup map is keyed by url.join with the size hints
included, not by the identifier alone. -/
theorem loadResources_two_fetches_same_identifier :
    ¬ ((loadResources emptyCache batchTwoSizes).countP
        (fun u => u.id == "a") ≤ 1) := by decide

/-- C1 amended: within one batch, loadResources issues at most one fetch
per full request key (the identifier joined with both size hints);
same-identifier requests with different size hints are fetched
separately. -/
theorem loadResources_dedup_by_joinKey (cache : ResourceCache)
    (resourceUrls : List ResourceKey) (k : String) :
    (loadResources cache resourceUrls).countP (fun u => joinKey u == k) ≤ 1 := by
  unfold loadResources
  exact loadLoop_countP_le_one cache k resourceUrls.reverse []

/-- Inserting a key makes it the result of its own lookup. -/
theorem lookupRes_insertRes_self (m : List (String × ResEntry)) (k : String)
    (v : ResEntry) : lookupRes (insertRes m k v) k = some v := by
  induction m with
  | nil => simp [insertRes, lookupRes]
  | cons kv rest ih =>
      obtain ⟨k0, v0⟩ := kv
      by_cases h : k0 = k
      · simp [insertRes, lookupRes, h]
      · have hb : (k0 == k) = false := by simpa using h
        simp only [insertRes, hb, if_false, Bool.false_eq_true]
        simpa [lookupRes, List.find?_cons, hb] using ih

/-- Inserting a key leaves lookups of other keys unchanged. -/
theorem lookupRes_insertRes_ne (m : List (String × ResEntry)) (k q : String)
    (v : ResEntry) (h : q ≠ k) :
    lookupRes (insertRes m k v) q = lookupRes m q := by
  induction m with
  | nil =>
      have hb : (k == q) = false := by simpa using fun he => h he.symm
      simp [insertRes, lookupRes, hb]
  | cons kv rest ih =>
      obtain ⟨k0, v0⟩ := kv
      by_cases h0 : k0 = k
      · have hb : (k0 == k) = true := by simpa using h0
        have hq : (k == q) = false := by simpa using fun he => h he.symm
        have hq0 : (k0 == q) = false := by
          subst h0; exact hq
        simp [insertRes, lookupRes, hb, hq, hq0]
      · have hb : (k0 == k) = false := by simpa using h0
        simp only [insertRes, hb, if_false, Bool.false_eq_true]
        by_cases h0q : k0 = q
        · simp [lookupRes, h0q]
        · have hb2 : (k0 == q) = false := by simpa using h0q
          simp only [lookupRes, List.find?_cons, hb2, if_false]
          simpa [lookupRes] using ih

/-- mergeAdd never touches the error set, so neither does the merge fold. -/
theorem foldl_mergeAdd_errors (l : List (String × ResEntry)) (c : ResourceCache) :
    (l.foldl mergeAdd c).errors = c.errors := by
  induction l generalizing c with
  | nil => rfl
  | cons pe rest ih => simpa [mergeAdd, addResource] using ih (mergeAdd c pe)

/-- The merge fold leaves lookups of keys absent from the source alone. -/
theorem foldl_mergeAdd_lookup_not_mem (l : List (String × ResEntry))
    (c : ResourceCache) (p : String) (hp : p ∉ l.map Prod.fst) :
    lookupRes (l.foldl mergeAdd c).resources p = lookupRes c.resources p := by
  induction l generalizing c with
  | nil => rfl
  | cons pe rest ih =>
      obtain ⟨q, e⟩ := pe
      have hne : p ≠ q := by
        intro he
        exact hp (by simp [he])
      have hrest : p ∉ rest.map Prod.fst := by
        intro hm
        exact hp (by simp [hm])
      calc lookupRes ((rest.foldl mergeAdd (mergeAdd c (q, e)))).resources p
          = lookupRes (mergeAdd c (q, e)).resources p := ih _ hrest
        _ = lookupRes c.resources p := by
            simpa [mergeAdd, addResource] using
              lookupRes_insertRes_ne c.resources q p ⟨e.image, e.width, e.height⟩ hne

/-- After the merge fold over a source with distinct keys, every source
entry is the result of its own lookup. -/
theorem foldl_mergeAdd_lookup_mem (l : List (String × ResEntry))
    (c : ResourceCache) (p : String) (e : ResEntry)
    (hnd : (l.map Prod.fst).Nodup) (hmem : (p, e) ∈ l) :
    lookupRes (l.foldl mergeAdd c).resources p = some e := by
  induction l generalizing c with
  | nil => cases hmem
  | cons pe rest ih =>
      obtain ⟨q, f⟩ := pe
      rcases List.mem_cons.mp hmem with hhd | htl
      · injection hhd with hq hf
        subst hq; subst hf
        have hnot : p ∉ rest.map Prod.fst := by
          simpa using (List.nodup_cons.mp hnd).1
        rw [List.foldl_cons, foldl_mergeAdd_lookup_not_mem rest _ p hnot]
        simpa [mergeAdd, addResource] using
          lookupRes_insertRes_self c.resources p ⟨e.image, e.width, e.height⟩
      · exact ih _ (List.nodup_cons.mp hnd).2 htl

/-- C6: merging another cache copies every successful entry of the source
(overwriting entries with the same identifier, including re-keyed ones)
while the error set of the target stays exactly what it was — no error
marker of the source is copied. -/
theorem merge_copies_entries_not_errors (c other : ResourceCache)
    (hnd : (other.resources.map Prod.fst).Nodup) :
    (∀ p e, (p, e) ∈ other.resources →
        lookupRes (merge c (some other)).resources p = some e)
  ∧ (merge c (some other)).errors = c.errors := by
  constructor
  · intro p e hmem
    simpa [merge] using foldl_mergeAdd_lookup_mem other.resources c p e hnd hmem
  · simpa [merge] using foldl_mergeAdd_errors other.resources c

/-- C6 witness: merging the concrete source cache copies its fresh entry
and its shadowing entry, and leaves the target error set untouched even
though the source carries an error marker. -/
theorem merge_copies_entries_not_errors_witness :
    lookupRes (merge cacheMergeInto (some cacheMergeFrom)).resources "b"
      = some ⟨7, some 4, some 5⟩
  ∧ (merge cacheMergeInto (some cacheMergeFrom)).errors = cacheMergeInto.errors :=
  ⟨(merge_copies_entries_not_errors cacheMergeInto cacheMergeFrom (by decide)).1
      "b" ⟨7, some 4, some 5⟩ (by decide),
   (merge_copies_entries_not_errors cacheMergeInto cacheMergeFrom (by decide)).2⟩

/-- No single cache operation removes an identifier from the error set. -/
theorem errors_mem_applyOp (c : ResourceCache) (op : CacheOp) (k : String)
    (h : k ∈ c.errors) : k ∈ (applyOp c op).errors := by
  cases op with
  | add u img => exact h
  | markErr u =>
      by_cases hc : getImgUrl u ∈ c.errors <;>
        simp [applyOp, markErrorResource, hc, h]
  | mergeFrom other =>
      have := foldl_mergeAdd_errors other.resources c
      simpa [applyOp, merge, this] using h

/-- No sequence of cache operations removes an identifier from the error
set. -/
theorem errors_mem_applyOps (ops : List CacheOp) (c : ResourceCache)
    (k : String) (h : k ∈ c.errors) : k ∈ (applyOps c ops).errors := by
  induction ops generalizing c with
  | nil => exact h
  | cons op rest ih => exact ih (applyOp c op) (errors_mem_applyOp c op k h)

/-- getImage answers null for any identifier in the error set. -/
theorem getImage_none_of_error (c : ResourceCache) (u : ResourceKey)
    (h : u.id ∈ c.errors) : getImage c u = none := by
  simp [getImage, getImgUrl, h]

/-- C9: once markErrorResource has run for a key, getImage on that key
answers null after any further sequence of cache operations — including
addResource inserting a successful entry for it. -/
theorem getImage_none_forever_after_markErrorResource (c : ResourceCache)
    (u : ResourceKey) (ops : List CacheOp) :
    getImage (applyOps (markErrorResource c u) ops) u = none := by
  apply getImage_none_of_error
  apply errors_mem_applyOps
  unfold markErrorResource getImgUrl
  by_cases h : u.id ∈ c.errors <;> simp [h]

end MapRender

